import Mathlib

/-!
Verification development for the PeachBoard whiteboard client.

The definitions below are a shallow embedding of the drawing-surface and
persistence logic of the board view (the BoardPage component with the
pen / eraser / rectangle / circle tools), of the dashboard board-list
handlers, and of the realtime insert subscription callback.  Numbers are
modelled as exact rationals; the floating-point square-root primitive is
passed as an explicit function parameter where the source calls Math.sqrt.
-/

/-- JavaScript runtime values that can appear in the jsonb payload column.
Only the constructors the read path can observe are modelled; a missing
(undefined) field is modelled as none of Option JVal. -/
inductive JVal
  | jnum (q : ℚ)
  | jstr (s : String)
  | jarr (xs : List JVal)
  | jnull

/-- Stroke tools: the pen and the eraser share the points-list payload. -/
inductive LTool
  | pen
  | eraser
  deriving DecidableEq, Repr

/-- The four drawing tools of the toolbar. -/
inductive Tool
  | pen
  | eraser
  | rectangle
  | circle
  deriving DecidableEq, Repr

/-- A pointer position on the stage. -/
structure Pt where
  x : ℚ
  y : ℚ
  deriving DecidableEq, Repr

/-- The polymorphic element payload: the tagged union behind the
LineElement, RectangleElement and CircleElement interfaces. -/
inductive Shape
  | stroke (t : LTool) (points : List ℚ)
  | rect (x y width height : ℚ)
  | circl (x y radius : ℚ)
  deriving DecidableEq, Repr

/-- An in-memory BoardElement as built by the drawing handlers: local
elements are created without an id (the id field is optional in the
BoardElementBase interface and the pointer handlers never set it). -/
structure Element where
  id : Option String
  color : String
  strokeWidth : ℚ
  shape : Shape
  deriving DecidableEq, Repr

/-- The payload written to the element_data jsonb column by
saveElementToDb (the Omit of the element interfaces without id and
creator_id). -/
structure SaveData where
  color : String
  strokeWidth : ℚ
  shape : Shape
  deriving DecidableEq, Repr

/-- The zero-size element appended by handleMouseDown (left button) and
handleTouchStart (single touch): a one-point stroke, a zero-size
rectangle, or a zero-radius circle anchored at the pointer position. -/
def mouseDownElement (tool : Tool) (pos : Pt) (color : String) (sw : ℚ) : Element :=
  match tool with
  | Tool.pen => ⟨none, color, sw, Shape.stroke LTool.pen [pos.x, pos.y]⟩
  | Tool.eraser => ⟨none, color, sw, Shape.stroke LTool.eraser [pos.x, pos.y]⟩
  | Tool.rectangle => ⟨none, color, sw, Shape.rect pos.x pos.y 0 0⟩
  | Tool.circle => ⟨none, color, sw, Shape.circl pos.x pos.y 0⟩

/-- The drawing branch of handleMouseDown: appends the new zero-length
element to the element list. -/
def handleMouseDown (tool : Tool) (pos : Pt) (color : String) (sw : ℚ)
    (l : List Element) : List Element :=
  l ++ [mouseDownElement tool pos color sw]

/-- The drawing branch of handleMouseMove / handleTouchMove: replaces the
last element of the list by an updated copy.  The start argument is the
drawingStartPoint ref (None when no drag anchor was recorded); the sqrt
argument stands for the Math.sqrt call in the circle branch. -/
def handleMouseMoveDrawing (sqrt : ℚ → ℚ) (start : Option Pt) (point : Pt)
    (l : List Element) : List Element :=
  match l.getLast? with
  | none => l
  | some cur =>
    match cur.shape, start with
    | Shape.stroke t ps, _ =>
        l.dropLast ++ [{ cur with shape := Shape.stroke t (ps ++ [point.x, point.y]) }]
    | Shape.rect x y _ _, some s =>
        l.dropLast ++ [{ cur with shape := Shape.rect x y (point.x - s.x) (point.y - s.y) }]
    | Shape.circl x y _, some s =>
        l.dropLast ++ [{ cur with
          shape := Shape.circl x y
            (sqrt ((point.x - s.x) * (point.x - s.x) + (point.y - s.y) * (point.y - s.y))) }]
    | _, none => l

/-- saveElementToDb: builds the insert payload for the last element of the
list (None when the element is degenerate and the insert is skipped) and
returns the element list as the function leaves it.  Degenerate strokes
(fewer than two points, flattened length below 4) are skipped without
touching the list; zero-size rectangles and zero-radius circles are
skipped and the last element is dropped from the list; a persisted
rectangle is normalized to a repositioned origin plus absolute
dimensions, a persisted circle to an absolute radius. -/
def saveElementToDb (l : List Element) : Option SaveData × List Element :=
  match l.getLast? with
  | none => (none, l)
  | some last =>
    match last.shape with
    | Shape.stroke t ps =>
        if ps.length < 4 then (none, l)
        else (some ⟨last.color, last.strokeWidth, Shape.stroke t ps⟩, l)
    | Shape.rect x y w h =>
        if w = 0 ∨ h = 0 then (none, l.dropLast)
        else
          (some ⟨last.color, last.strokeWidth,
            Shape.rect (if w < 0 then x + w else x) (if h < 0 then y + h else y) |w| |h|⟩, l)
    | Shape.circl x y r =>
        if r = 0 then (none, l.dropLast)
        else (some ⟨last.color, last.strokeWidth, Shape.circl x y |r|⟩, l)

/-- A line record of the stroke-only BoardPage variant (LineData). -/
structure LineData where
  id : Option String
  points : List ℚ
  tool : LTool
  color : String
  strokeWidth : ℚ
  deriving DecidableEq, Repr

/-- saveLineToDb of the stroke-only BoardPage variant: the insert payload
for the last line, or None when the line has fewer than two points
(flattened length below 4); the list is never mutated there. -/
def saveLineToDb (l : List LineData) : Option (List ℚ × LTool × String × ℚ) :=
  match l.getLast? with
  | none => none
  | some last =>
    if last.points.length < 4 then none
    else some (last.points, last.tool, last.color, last.strokeWidth)

/-- The x, y, width, height props of the Rect node rendered for a
rectangle element: negative dimensions are folded into a repositioned
origin plus absolute dimensions. -/
def renderRectQuad (x y w h : ℚ) : ℚ × ℚ × ℚ × ℚ :=
  (if w < 0 then x + w else x, if h < 0 then y + h else y, |w|, |h|)

/-- The closed axis-aligned region of the plane covered by a rectangle
with origin (x, y) and signed dimensions (w, h). -/
def rectRegion (x y w h : ℚ) : Set (ℚ × ℚ) :=
  {p | min x (x + w) ≤ p.1 ∧ p.1 ≤ max x (x + w) ∧
       min y (y + h) ≤ p.2 ∧ p.2 ≤ max y (y + h)}

/-- Zoom limits MIN_SCALE = 0.02 and MAX_SCALE = 8.0. -/
def MIN_SCALE : ℚ := 1 / 50

/-- Upper zoom limit. -/
def MAX_SCALE : ℚ := 8

/-- The clamp Math.max(MIN_SCALE, Math.min(MAX_SCALE, s)) applied to every
scale about to be stored. -/
def clampScale (s : ℚ) : ℚ := max MIN_SCALE (min MAX_SCALE s)

/-- The three kinds of events that change the stage scale: a wheel event
(carrying the sign of deltaY), a two-finger pinch move (carrying the
previous and the new finger distance from the lastDist ref), and an edit
of the zoom percentage input (carrying the parseFloat result, None for
NaN). -/
inductive ZoomEvent
  | wheel (deltaYPos : Bool)
  | pinch (lastDist newDist : ℚ)
  | zoomInput (value : Option ℚ)

/-- The scale transition of one zoom event, read off handleWheel, the
pinch branch of handleTouchMove, and handleZoomInputChange.  The wheel
multiplies or divides by scaleBy = 1.05 = 21/20 and clamps; the pinch
multiplies by newDist / lastDist and clamps when lastDist is positive;
the zoom input clamps value / 100 for positive parsed values and leaves
the scale alone otherwise. -/
def zoomStep (s : ℚ) : ZoomEvent → ℚ
  | ZoomEvent.wheel deltaYPos =>
      clampScale (if deltaYPos then s / (21 / 20) else s * (21 / 20))
  | ZoomEvent.pinch lastDist newDist =>
      if 0 < lastDist then clampScale (s * (newDist / lastDist)) else s
  | ZoomEvent.zoomInput value =>
      match value with
      | some p => if 0 < p then clampScale (p / 100) else s
      | none => s

/-- The stage scale after a sequence of zoom events, starting from the
initial scale 1. -/
def zoomRun (evs : List ZoomEvent) : ℚ := evs.foldl zoomStep 1

/-- handleWheel: the new scale and the new stage position of one wheel
event, zooming around the pointer position. -/
def handleWheel (deltaYPos : Bool) (pointer : Pt) (oldScale : ℚ) (stagePos : Pt) :
    ℚ × Pt :=
  let mousePointToX := (pointer.x - stagePos.x) / oldScale
  let mousePointToY := (pointer.y - stagePos.y) / oldScale
  let newScale := clampScale (if deltaYPos then oldScale / (21 / 20) else oldScale * (21 / 20))
  (newScale, ⟨pointer.x - mousePointToX * newScale, pointer.y - mousePointToY * newScale⟩)

/-- The element_data jsonb object of a board_lines row, as the read path
accesses it: every field access can yield a value of any runtime type or
be missing (None). -/
structure ElementData where
  tool : Option JVal
  color : Option JVal
  strokeWidth : Option JVal
  points : Option JVal
  x : Option JVal
  y : Option JVal
  width : Option JVal
  height : Option JVal
  radius : Option JVal

/-- A board_lines row as delivered by the initial bulk fetch or by a
realtime INSERT notification.  element_data is None when the column is
null, undefined, or not an object (all of which the read path skips). -/
structure Row where
  id : String
  creator : Option String
  element_data : Option ElementData

/-- JavaScript truthiness of a possibly missing field value (undefined,
null, 0 and the empty string are falsy). -/
def truthy : Option JVal → Bool
  | none => false
  | some JVal.jnull => false
  | some (JVal.jnum q) => q != 0
  | some (JVal.jstr s) => s != ""
  | some (JVal.jarr _) => true

/-- The nullish coalescing fallback (v ?? 0) used for the width, height
and radius fields. -/
def nvl (v : Option JVal) : JVal :=
  match v with
  | none => JVal.jnum 0
  | some JVal.jnull => JVal.jnum 0
  | some w => w

/-- The payload of an element built by the read path.  The fields that
the validation does not type-check are kept as raw runtime values:
points entries, y (which is copied through even when missing), width,
height and radius. -/
inductive PShape
  | pstroke (t : LTool) (points : List JVal)
  | prect (x : JVal) (y : Option JVal) (width height : JVal)
  | pcircle (x : JVal) (y : Option JVal) (radius : JVal)

/-- A BoardElement held in the elements state list, as the realtime
callback and the initial fetch construct it.  Local elements created by
the drawing handlers have id = None; elements built from rows carry the
row id.  color and strokeWidth are copied raw from element_data and can
be missing (None), since the realtime callback never checks them. -/
structure PElem where
  id : Option String
  creator : Option String
  color : Option JVal
  strokeWidth : Option JVal
  shape : PShape

/-- The per-tool branch chain that fetchInitialElements and the realtime
INSERT callback both perform on element_data: a pen or eraser row must
hold a non-empty points array; a rectangle or circle row must hold a
numeric x; any other row fails (None).  The source compares
element_data.tool against string literals, so a non-string tool value
fails every branch. -/
def parseShape (d : ElementData) : Option PShape :=
  match d.tool with
  | some (JVal.jstr s) =>
    if s = "pen" || s = "eraser" then
      match d.points with
      | some (JVal.jarr ps) =>
        if 0 < ps.length then
          some (PShape.pstroke (if s = "pen" then LTool.pen else LTool.eraser) ps)
        else none
      | _ => none
    else if s = "rectangle" then
      match d.x with
      | some (JVal.jnum q) =>
        some (PShape.prect (JVal.jnum q) d.y (nvl d.width) (nvl d.height))
      | _ => none
    else if s = "circle" then
      match d.x with
      | some (JVal.jnum q) =>
        some (PShape.pcircle (JVal.jnum q) d.y (nvl d.radius))
      | _ => none
    else none
  | _ => none

/-- The row-to-element conversion of the realtime INSERT callback: it runs
the per-tool branch chain directly, with NO truthiness check on tool,
color or strokeWidth — those base fields are copied raw into the element
(missing ones stay missing). -/
def parseRowRealtime (r : Row) : Option PElem :=
  match r.element_data with
  | none => none
  | some d =>
    match parseShape d with
    | none => none
    | some sh =>
        some { id := some r.id, creator := r.creator,
               color := d.color, strokeWidth := d.strokeWidth, shape := sh }

/-- The row-to-element conversion of fetchInitialElements: unlike the
realtime callback it first requires tool, color and strokeWidth to be
truthy, then runs the same per-tool branch chain and copies the base
fields raw. -/
def parseRowFetch (r : Row) : Option PElem :=
  match r.element_data with
  | none => none
  | some d =>
    if truthy d.tool && truthy d.color && truthy d.strokeWidth then
      match parseShape d with
      | none => none
      | some sh =>
          some { id := some r.id, creator := r.creator,
                 color := d.color, strokeWidth := d.strokeWidth, shape := sh }
    else none

/-- The realtime INSERT callback applied to the current elements list:
the row is converted into an element, and the element is appended only
when no list entry already carries its id (the duplicate check of the
setElements updater). -/
def processInsert (l : List PElem) (r : Row) : List PElem :=
  match parseRowRealtime r with
  | none => l
  | some ne => if l.any (fun el => el.id == ne.id) then l else l ++ [ne]

/-- The number of list entries carrying a given row id. -/
def countId (l : List PElem) (rid : String) : Nat :=
  (l.filter (fun el => el.id == some rid)).length

/-- Numeric test on a runtime value (typeof v === 'number'). -/
def isNum : JVal → Bool
  | JVal.jnum _ => true
  | _ => false

/-- A payload whose fields all match its tool tag: a non-empty all-numeric
points array for strokes, numeric x, y, width, height for rectangles,
numeric x, y, radius for circles. -/
def wellTypedShape : PShape → Bool
  | PShape.pstroke _ ps => !ps.isEmpty && ps.all isNum
  | PShape.prect x y w h =>
      isNum x && (match y with | some v => isNum v | none => false) && isNum w && isNum h
  | PShape.pcircle x y rad =>
      isNum x && (match y with | some v => isNum v | none => false) && isNum rad

/-- A board row of the peachboards table. -/
structure Board where
  id : String
  created_at : String
  name : String
  owner_id : String
  share_link_id : Option String
  deriving DecidableEq, Repr

/-- The dashboard view state touched by the board operations (the loading
flags are set at operation start and cleared in the finally block, so
they are net-unchanged across an operation and are not modelled). -/
structure DashState where
  boards : List Board
  fetchError : Option String
  createError : Option String
  actionError : Option String
  deriving DecidableEq, Repr

/-- The resolution of one backend request. -/
inductive QueryResult (α : Type)
  | ok (data : α)
  | fail (msg : String)

/-- The message fallback (err.message or 'Unknown error'). -/
def errMsg (m : String) : String := if m = "" then "Unknown error" else m

/-- fetchBoards: on success the boards list is replaced by the fetched
rows and the fetch error is cleared; on failure the fetch error is set
and the boards list is cleared. -/
def fetchBoardsRun (st : DashState) (res : QueryResult (List Board)) : DashState :=
  match res with
  | QueryResult.ok data => { st with fetchError := none, boards := data }
  | QueryResult.fail m =>
      { st with fetchError := some ("Failed to fetch boards: " ++ errMsg m), boards := [] }

/-- The failure path of handleCreateBoard: only the create error is set. -/
def createBoardFail (st : DashState) (m : String) : DashState :=
  { st with createError := some ("Failed to create board: " ++ errMsg m) }

/-- The failure path of handleDeleteBoard: only the action error is set. -/
def deleteBoardFail (st : DashState) (m : String) : DashState :=
  { st with actionError := some ("Failed to delete board: " ++ errMsg m) }

/-- The failure path of handleConfirmRename: only the action error is set. -/
def renameBoardFail (st : DashState) (m : String) : DashState :=
  { st with actionError := some ("Failed to rename board: " ++ errMsg m) }

/-- The board view state touched by the element operations. -/
structure BoardViewState where
  board : Option Board
  elements : List PElem
  error : Option String

/-- The error-appending updater setError(prev => prev ? prev + ... : ...)
used by the board view (an empty previous string is falsy and is
replaced). -/
def appendError (prev : Option String) (m : String) : Option String :=
  match prev with
  | some p => if p = "" then some m else some (p ++ "\n" ++ m)
  | none => some m

/-- The failure path of fetchInitialElements: only the error is updated. -/
def fetchElementsFail (st : BoardViewState) : BoardViewState :=
  { st with error := appendError st.error "Failed to fetch elements." }

/-- The failure path of the saveElementToDb insert: only the error is
updated. -/
def saveElementFail (st : BoardViewState) : BoardViewState :=
  { st with error := appendError st.error "Failed to save element." }

/-- The string tag written for a stroke tool. -/
def toolTag : LTool → String
  | LTool.pen => "pen"
  | LTool.eraser => "eraser"

/-- The jsonb object that the saveElementToDb insert writes to the
element_data column for a given payload. -/
def encodeSaveData (sd : SaveData) : ElementData :=
  match sd.shape with
  | Shape.stroke t ps =>
      { tool := some (JVal.jstr (toolTag t)), color := some (JVal.jstr sd.color),
        strokeWidth := some (JVal.jnum sd.strokeWidth),
        points := some (JVal.jarr (ps.map JVal.jnum)),
        x := none, y := none, width := none, height := none, radius := none }
  | Shape.rect x y w h =>
      { tool := some (JVal.jstr "rectangle"), color := some (JVal.jstr sd.color),
        strokeWidth := some (JVal.jnum sd.strokeWidth), points := none,
        x := some (JVal.jnum x), y := some (JVal.jnum y),
        width := some (JVal.jnum w), height := some (JVal.jnum h), radius := none }
  | Shape.circl x y rad =>
      { tool := some (JVal.jstr "circle"), color := some (JVal.jstr sd.color),
        strokeWidth := some (JVal.jnum sd.strokeWidth), points := none,
        x := some (JVal.jnum x), y := some (JVal.jnum y),
        width := none, height := none, radius := some (JVal.jnum rad) }

/-- The realtime INSERT notification row for a saved payload, carrying the
database-assigned row id. -/
def insertRow (sd : SaveData) (rid : String) (creator : Option String) : Row :=
  { id := rid, creator := creator, element_data := some (encodeSaveData sd) }

/-- The element the realtime callback builds from the echo of a saved
payload. -/
def echoElem (sd : SaveData) (rid : String) (creator : Option String) : PElem :=
  match sd.shape with
  | Shape.stroke t ps =>
      { id := some rid, creator := creator, color := some (JVal.jstr sd.color),
        strokeWidth := some (JVal.jnum sd.strokeWidth),
        shape := PShape.pstroke t (ps.map JVal.jnum) }
  | Shape.rect x y w h =>
      { id := some rid, creator := creator, color := some (JVal.jstr sd.color),
        strokeWidth := some (JVal.jnum sd.strokeWidth),
        shape := PShape.prect (JVal.jnum x) (some (JVal.jnum y)) (JVal.jnum w) (JVal.jnum h) }
  | Shape.circl x y rad =>
      { id := some rid, creator := creator, color := some (JVal.jstr sd.color),
        strokeWidth := some (JVal.jnum sd.strokeWidth),
        shape := PShape.pcircle (JVal.jnum x) (some (JVal.jnum y)) (JVal.jnum rad) }

theorem le_clampScale (s : ℚ) : MIN_SCALE ≤ clampScale s := le_max_left _ _

theorem clampScale_le (s : ℚ) : clampScale s ≤ MAX_SCALE :=
  max_le (by norm_num [MIN_SCALE, MAX_SCALE]) (min_le_left _ _)

theorem clampScale_pos (s : ℚ) : 0 < clampScale s :=
  lt_of_lt_of_le (by norm_num [MIN_SCALE]) (le_clampScale s)

theorem zoomStep_mem (s : ℚ) (hs1 : MIN_SCALE ≤ s) (hs2 : s ≤ MAX_SCALE) (e : ZoomEvent) :
    MIN_SCALE ≤ zoomStep s e ∧ zoomStep s e ≤ MAX_SCALE := by
  cases e with
  | wheel d => exact ⟨le_clampScale _, clampScale_le _⟩
  | pinch a b =>
    by_cases h : 0 < a
    · simp only [zoomStep, if_pos h]
      exact ⟨le_clampScale _, clampScale_le _⟩
    · simp only [zoomStep, if_neg h]
      exact ⟨hs1, hs2⟩
  | zoomInput v =>
    cases v with
    | none => exact ⟨hs1, hs2⟩
    | some p =>
      by_cases h : 0 < p
      · simp only [zoomStep, if_pos h]
        exact ⟨le_clampScale _, clampScale_le _⟩
      · simp only [zoomStep, if_neg h]
        exact ⟨hs1, hs2⟩

/-- Claim C4: the stage zoom scale is an invariant of every state
transition: starting from the initial scale 1, after any sequence of
wheel events, pinch events and zoom-input changes, with arbitrary wheel
deltas, pinch distances and input percentages, the resulting scale lies
in the closed interval from MIN_SCALE = 0.02 to MAX_SCALE = 8.0. -/
theorem zoom_scale_invariant (evs : List ZoomEvent) :
    MIN_SCALE ≤ zoomRun evs ∧ zoomRun evs ≤ MAX_SCALE := by
  suffices h : ∀ s : ℚ, MIN_SCALE ≤ s → s ≤ MAX_SCALE →
      MIN_SCALE ≤ evs.foldl zoomStep s ∧ evs.foldl zoomStep s ≤ MAX_SCALE by
    exact h 1 (by norm_num [MIN_SCALE]) (by norm_num [MAX_SCALE])
  induction evs with
  | nil => intro s h1 h2; exact ⟨h1, h2⟩
  | cons e t ih =>
    intro s h1 h2
    have hstep := zoomStep_mem s h1 h2 e
    simpa using ih (zoomStep s e) hstep.1 hstep.2

/-- Claim C9: every wheel event zooms around the pointer location: the new
scale is the old scale multiplied or divided by 1.05 according to the
wheel direction and clamped to the zoom limits, and the new stage
position keeps the canvas point under the pointer unchanged, in exact
rational arithmetic. -/
theorem wheel_zoom_pivot_invariant (d : Bool) (p : Pt) (s : ℚ) (t : Pt) (hs : s ≠ 0) :
    (handleWheel d p s t).1 = clampScale (if d then s / (21 / 20) else s * (21 / 20))
    ∧ (handleWheel d p s t).1 ≠ 0
    ∧ (p.x - (handleWheel d p s t).2.x) / (handleWheel d p s t).1 = (p.x - t.x) / s
    ∧ (p.y - (handleWheel d p s t).2.y) / (handleWheel d p s t).1 = (p.y - t.y) / s := by
  have hns : clampScale (if d then s / (21 / 20) else s * (21 / 20)) ≠ 0 :=
    ne_of_gt (clampScale_pos _)
  refine ⟨rfl, hns, ?_, ?_⟩
  · show (p.x - (p.x - (p.x - t.x) / s * clampScale (if d then s / (21 / 20) else s * (21 / 20))))
        / clampScale (if d then s / (21 / 20) else s * (21 / 20)) = (p.x - t.x) / s
    rw [sub_sub_cancel]
    exact mul_div_cancel_right₀ _ hns
  · show (p.y - (p.y - (p.y - t.y) / s * clampScale (if d then s / (21 / 20) else s * (21 / 20))))
        / clampScale (if d then s / (21 / 20) else s * (21 / 20)) = (p.y - t.y) / s
    rw [sub_sub_cancel]
    exact mul_div_cancel_right₀ _ hns

/-- Witness for wheel_zoom_pivot_invariant at a concrete wheel event. -/
theorem wheel_zoom_pivot_invariant_witness :
    (1 : ℚ) ≠ 0
    ∧ ((handleWheel false ⟨10, 10⟩ 1 ⟨0, 0⟩).1
          = clampScale (if false then (1 : ℚ) / (21 / 20) else (1 : ℚ) * (21 / 20))
        ∧ (handleWheel false ⟨10, 10⟩ 1 ⟨0, 0⟩).1 ≠ 0
        ∧ ((10 : ℚ) - (handleWheel false ⟨10, 10⟩ 1 ⟨0, 0⟩).2.x)
            / (handleWheel false ⟨10, 10⟩ 1 ⟨0, 0⟩).1 = ((10 : ℚ) - 0) / 1
        ∧ ((10 : ℚ) - (handleWheel false ⟨10, 10⟩ 1 ⟨0, 0⟩).2.y)
            / (handleWheel false ⟨10, 10⟩ 1 ⟨0, 0⟩).1 = ((10 : ℚ) - 0) / 1) :=
  ⟨by decide, wheel_zoom_pivot_invariant false ⟨10, 10⟩ 1 ⟨0, 0⟩ (by decide)⟩

theorem rectRegion_norm (x y w h : ℚ) :
    rectRegion (if w < 0 then x + w else x) (if h < 0 then y + h else y) |w| |h|
      = rectRegion x y w h := by
  have hx1 : min (if w < 0 then x + w else x) ((if w < 0 then x + w else x) + |w|)
      = min x (x + w) := by
    rcases lt_or_ge w 0 with hw | hw
    · rw [if_pos hw, abs_of_neg hw, show x + w + -w = x by ring, min_comm]
    · rw [if_neg (not_lt.mpr hw), abs_of_nonneg hw]
  have hx2 : max (if w < 0 then x + w else x) ((if w < 0 then x + w else x) + |w|)
      = max x (x + w) := by
    rcases lt_or_ge w 0 with hw | hw
    · rw [if_pos hw, abs_of_neg hw, show x + w + -w = x by ring, max_comm]
    · rw [if_neg (not_lt.mpr hw), abs_of_nonneg hw]
  have hy1 : min (if h < 0 then y + h else y) ((if h < 0 then y + h else y) + |h|)
      = min y (y + h) := by
    rcases lt_or_ge h 0 with hh | hh
    · rw [if_pos hh, abs_of_neg hh, show y + h + -h = y by ring, min_comm]
    · rw [if_neg (not_lt.mpr hh), abs_of_nonneg hh]
  have hy2 : max (if h < 0 then y + h else y) ((if h < 0 then y + h else y) + |h|)
      = max y (y + h) := by
    rcases lt_or_ge h 0 with hh | hh
    · rw [if_pos hh, abs_of_neg hh, show y + h + -h = y by ring, max_comm]
    · rw [if_neg (not_lt.mpr hh), abs_of_nonneg hh]
  simp only [rectRegion]
  rw [hx1, hx2, hy1, hy2]

/-- Claim C1: a completed rectangle drag with a negative interactive width
or height persists with non-negative dimensions and a repositioned origin
(x shifted by width when width is negative, y shifted by height when
height is negative, absolute dimensions), and the persisted rectangle
occupies exactly the same axis-aligned region as the rectangle rendered
during the drag (the Rect node props given by renderRectQuad). -/
theorem rect_negative_drag_normalized
    (l : List Element) (e : Element) (x y w h : ℚ)
    (hl : l.getLast? = some e) (hs : e.shape = Shape.rect x y w h)
    (hw : w ≠ 0) (hh : h ≠ 0) (hneg : w < 0 ∨ h < 0) :
    (saveElementToDb l).1 = some ⟨e.color, e.strokeWidth,
        Shape.rect (if w < 0 then x + w else x) (if h < 0 then y + h else y) |w| |h|⟩
    ∧ 0 ≤ |w| ∧ 0 ≤ |h|
    ∧ ((if w < 0 then x + w else x), (if h < 0 then y + h else y), |w|, |h|)
        = renderRectQuad x y w h
    ∧ rectRegion (if w < 0 then x + w else x) (if h < 0 then y + h else y) |w| |h|
        = rectRegion x y w h := by
  refine ⟨?_, abs_nonneg w, abs_nonneg h, rfl, rectRegion_norm x y w h⟩
  simp [saveElementToDb, hl, hs, hw, hh]

/-- Witness for rect_negative_drag_normalized: a drag from (10, 20) moving
3 left and 4 down gives interactive width -3 and height 4. -/
theorem rect_negative_drag_normalized_witness :
    ([⟨none, "#df4b26", 5, Shape.rect 10 20 (-3) 4⟩] : List Element).getLast?
        = some ⟨none, "#df4b26", 5, Shape.rect 10 20 (-3) 4⟩
    ∧ (Element.mk none "#df4b26" 5 (Shape.rect 10 20 (-3) 4)).shape = Shape.rect 10 20 (-3) 4
    ∧ (-3 : ℚ) ≠ 0 ∧ (4 : ℚ) ≠ 0 ∧ ((-3 : ℚ) < 0 ∨ (4 : ℚ) < 0)
    ∧ ((saveElementToDb [⟨none, "#df4b26", 5, Shape.rect 10 20 (-3) 4⟩]).1
          = some ⟨"#df4b26", 5,
              Shape.rect (if (-3 : ℚ) < 0 then 10 + -3 else 10)
                (if (4 : ℚ) < 0 then 20 + 4 else 20) |(-3 : ℚ)| |(4 : ℚ)|⟩
        ∧ (0 : ℚ) ≤ |(-3 : ℚ)| ∧ (0 : ℚ) ≤ |(4 : ℚ)|
        ∧ ((if (-3 : ℚ) < 0 then (10 : ℚ) + -3 else 10),
            (if (4 : ℚ) < 0 then (20 : ℚ) + 4 else 20), |(-3 : ℚ)|, |(4 : ℚ)|)
            = renderRectQuad 10 20 (-3) 4
        ∧ rectRegion (if (-3 : ℚ) < 0 then 10 + -3 else 10)
            (if (4 : ℚ) < 0 then 20 + 4 else 20) |(-3 : ℚ)| |(4 : ℚ)|
            = rectRegion 10 20 (-3) 4) :=
  ⟨rfl, rfl, by decide, by decide, Or.inl (by decide),
    rect_negative_drag_normalized
      [⟨none, "#df4b26", 5, Shape.rect 10 20 (-3) 4⟩]
      ⟨none, "#df4b26", 5, Shape.rect 10 20 (-3) 4⟩
      10 20 (-3) 4 rfl rfl (by decide) (by decide) (Or.inl (by decide))⟩

/-- Counterexample to claim C2 as stated: on pointer-up over a degenerate
stroke (a single recorded point, flattened length 2 below 4) the save is
skipped, but the stroke is NOT removed from the element list — the list
comes back unchanged, not with its last element discarded.  Only
degenerate rectangles and circles are discarded locally. -/
theorem degenerate_stroke_retained_cex :
    (saveElementToDb [⟨none, "#df4b26", 5, Shape.stroke LTool.pen [0, 0]⟩]).1 = none
    ∧ (saveElementToDb [⟨none, "#df4b26", 5, Shape.stroke LTool.pen [0, 0]⟩]).2
        = [⟨none, "#df4b26", 5, Shape.stroke LTool.pen [0, 0]⟩]
    ∧ (saveElementToDb [⟨none, "#df4b26", 5, Shape.stroke LTool.pen [0, 0]⟩]).2
        ≠ ([⟨none, "#df4b26", 5, Shape.stroke LTool.pen [0, 0]⟩] : List Element).dropLast := by
  refine ⟨rfl, rfl, ?_⟩
  decide

/-- Claim C2, amended: on pointer-up ending a drawing gesture no insert is
issued for a degenerate last element, and the list effect depends on the
tool: a degenerate stroke (fewer than two points) is retained in the
list, while a zero-size rectangle or zero-radius circle is removed; for
every non-degenerate last element exactly one insert is issued and the
list is left unchanged. -/
theorem pointerup_save_behavior
    (l : List Element) (e : Element) (hl : l.getLast? = some e) :
    (∀ t ps, e.shape = Shape.stroke t ps → ps.length < 4 →
        saveElementToDb l = (none, l))
    ∧ (∀ x y w h, e.shape = Shape.rect x y w h → (w = 0 ∨ h = 0) →
        saveElementToDb l = (none, l.dropLast))
    ∧ (∀ x y r, e.shape = Shape.circl x y r → r = 0 →
        saveElementToDb l = (none, l.dropLast))
    ∧ (∀ t ps, e.shape = Shape.stroke t ps → ¬ ps.length < 4 →
        saveElementToDb l = (some ⟨e.color, e.strokeWidth, Shape.stroke t ps⟩, l))
    ∧ (∀ x y w h, e.shape = Shape.rect x y w h → ¬ (w = 0 ∨ h = 0) →
        (saveElementToDb l).1.isSome = true ∧ (saveElementToDb l).2 = l)
    ∧ (∀ x y r, e.shape = Shape.circl x y r → r ≠ 0 →
        (saveElementToDb l).1.isSome = true ∧ (saveElementToDb l).2 = l) := by
  refine ⟨?_, ?_, ?_, ?_, ?_, ?_⟩
  · intro t ps hs hlen
    simp [saveElementToDb, hl, hs, hlen]
  · intro x y w h hs hd
    simp [saveElementToDb, hl, hs, hd]
  · intro x y r hs hd
    simp [saveElementToDb, hl, hs, hd]
  · intro t ps hs hlen
    simp [saveElementToDb, hl, hs, hlen]
  · intro x y w h hs hd
    simp [saveElementToDb, hl, hs, hd]
  · intro x y r hs hd
    simp [saveElementToDb, hl, hs, hd]

/-- Witness for pointerup_save_behavior on a one-element list holding a
non-degenerate circle. -/
theorem pointerup_save_behavior_witness :
    ([⟨none, "#df4b26", 5, Shape.circl 1 2 3⟩] : List Element).getLast?
        = some ⟨none, "#df4b26", 5, Shape.circl 1 2 3⟩
    ∧ (∀ x y r, (Element.mk none "#df4b26" 5 (Shape.circl 1 2 3)).shape = Shape.circl x y r →
        r ≠ 0 →
        (saveElementToDb [⟨none, "#df4b26", 5, Shape.circl 1 2 3⟩]).1.isSome = true
        ∧ (saveElementToDb [⟨none, "#df4b26", 5, Shape.circl 1 2 3⟩]).2
            = [⟨none, "#df4b26", 5, Shape.circl 1 2 3⟩]) :=
  ⟨rfl, (pointerup_save_behavior [⟨none, "#df4b26", 5, Shape.circl 1 2 3⟩]
    ⟨none, "#df4b26", 5, Shape.circl 1 2 3⟩ rfl).2.2.2.2.2⟩

/-- Claim C3: a stroke whose flattened points array holds fewer than two
coordinate pairs (length below 4) is never inserted: both the
saveElementToDb of the multi-tool board view and the saveLineToDb of the
stroke-only variant produce no insert payload for it. -/
theorem short_stroke_never_inserted
    (l : List Element) (e : Element) (t : LTool) (ps : List ℚ)
    (hl : l.getLast? = some e) (hs : e.shape = Shape.stroke t ps) (hlen : ps.length < 4)
    (l2 : List LineData) (d : LineData)
    (hl2 : l2.getLast? = some d) (hlen2 : d.points.length < 4) :
    (saveElementToDb l).1 = none ∧ saveLineToDb l2 = none := by
  constructor
  · simp [saveElementToDb, hl, hs, hlen]
  · simp [saveLineToDb, hl2, hlen2]

/-- Witness for short_stroke_never_inserted: single-point pen strokes in
both board-view variants. -/
theorem short_stroke_never_inserted_witness :
    ([⟨none, "#df4b26", 5, Shape.stroke LTool.pen [7, 8]⟩] : List Element).getLast?
        = some ⟨none, "#df4b26", 5, Shape.stroke LTool.pen [7, 8]⟩
    ∧ (Element.mk none "#df4b26" 5 (Shape.stroke LTool.pen [7, 8])).shape
        = Shape.stroke LTool.pen [7, 8]
    ∧ ([7, 8] : List ℚ).length < 4
    ∧ ([⟨none, [7, 8], LTool.pen, "#df4b26", 5⟩] : List LineData).getLast?
        = some ⟨none, [7, 8], LTool.pen, "#df4b26", 5⟩
    ∧ (LineData.mk none [7, 8] LTool.pen "#df4b26" 5).points.length < 4
    ∧ ((saveElementToDb [⟨none, "#df4b26", 5, Shape.stroke LTool.pen [7, 8]⟩]).1 = none
        ∧ saveLineToDb [⟨none, [7, 8], LTool.pen, "#df4b26", 5⟩] = none) :=
  ⟨rfl, rfl, by decide, rfl, by decide,
    short_stroke_never_inserted
      [⟨none, "#df4b26", 5, Shape.stroke LTool.pen [7, 8]⟩]
      ⟨none, "#df4b26", 5, Shape.stroke LTool.pen [7, 8]⟩
      LTool.pen [7, 8] rfl rfl (by decide)
      [⟨none, [7, 8], LTool.pen, "#df4b26", 5⟩]
      ⟨none, [7, 8], LTool.pen, "#df4b26", 5⟩ rfl (by decide)⟩

/-- Claim C8: with a drag anchor recorded, a pointer-move while drawing
mutates only the last element of a non-empty list: the returned list has
the same length, every entry except the last is identical, and the last
entry keeps its id, color and stroke width and only has its geometry
updated — points extended by one coordinate pair for stroke tools, width
and height recomputed as the delta from the drag anchor for rectangles,
and radius recomputed as the Euclidean distance from the drag anchor
(the square-root primitive applied to the squared distance) for
circles. -/
theorem mousemove_mutates_only_last
    (sqrt : ℚ → ℚ) (s p : Pt) (l : List Element) (e : Element)
    (hl : l.getLast? = some e) :
    (handleMouseMoveDrawing sqrt (some s) p l).length = l.length
    ∧ (handleMouseMoveDrawing sqrt (some s) p l).dropLast = l.dropLast
    ∧ (handleMouseMoveDrawing sqrt (some s) p l).getLast? = some
        { e with shape :=
            match e.shape with
            | Shape.stroke t ps => Shape.stroke t (ps ++ [p.x, p.y])
            | Shape.rect x y _ _ => Shape.rect x y (p.x - s.x) (p.y - s.y)
            | Shape.circl x y _ => Shape.circl x y
                (sqrt ((p.x - s.x) * (p.x - s.x) + (p.y - s.y) * (p.y - s.y))) } := by
  have hne : l ≠ [] := by
    intro h
    rw [h] at hl
    simp at hl
  have hpos : 0 < l.length := List.length_pos.mpr hne
  have hstep : handleMouseMoveDrawing sqrt (some s) p l = l.dropLast ++
      [{ e with shape :=
          match e.shape with
          | Shape.stroke t ps => Shape.stroke t (ps ++ [p.x, p.y])
          | Shape.rect x y _ _ => Shape.rect x y (p.x - s.x) (p.y - s.y)
          | Shape.circl x y _ => Shape.circl x y
              (sqrt ((p.x - s.x) * (p.x - s.x) + (p.y - s.y) * (p.y - s.y))) }] := by
    cases hsh : e.shape with
    | stroke t ps => simp [handleMouseMoveDrawing, hl, hsh]
    | rect x y w h => simp [handleMouseMoveDrawing, hl, hsh]
    | circl x y r => simp [handleMouseMoveDrawing, hl, hsh]
  rw [hstep]
  refine ⟨?_, List.dropLast_concat, List.getLast?_concat _⟩
  rw [List.length_append, List.length_dropLast]
  simp
  omega

/-- Witness for mousemove_mutates_only_last: a two-element list whose last
element is a circle in progress, with the identity function standing for
the square root. -/
theorem mousemove_mutates_only_last_witness :
    ([⟨none, "#000000", 2, Shape.stroke LTool.pen [0, 0, 1, 1]⟩,
      ⟨none, "#df4b26", 5, Shape.circl 1 2 0⟩] : List Element).getLast?
        = some ⟨none, "#df4b26", 5, Shape.circl 1 2 0⟩
    ∧ ((handleMouseMoveDrawing id (some ⟨1, 2⟩) ⟨4, 6⟩
          [⟨none, "#000000", 2, Shape.stroke LTool.pen [0, 0, 1, 1]⟩,
           ⟨none, "#df4b26", 5, Shape.circl 1 2 0⟩]).length
        = ([⟨none, "#000000", 2, Shape.stroke LTool.pen [0, 0, 1, 1]⟩,
            ⟨none, "#df4b26", 5, Shape.circl 1 2 0⟩] : List Element).length
      ∧ (handleMouseMoveDrawing id (some ⟨1, 2⟩) ⟨4, 6⟩
          [⟨none, "#000000", 2, Shape.stroke LTool.pen [0, 0, 1, 1]⟩,
           ⟨none, "#df4b26", 5, Shape.circl 1 2 0⟩]).dropLast
        = ([⟨none, "#000000", 2, Shape.stroke LTool.pen [0, 0, 1, 1]⟩,
            ⟨none, "#df4b26", 5, Shape.circl 1 2 0⟩] : List Element).dropLast
      ∧ (handleMouseMoveDrawing id (some ⟨1, 2⟩) ⟨4, 6⟩
          [⟨none, "#000000", 2, Shape.stroke LTool.pen [0, 0, 1, 1]⟩,
           ⟨none, "#df4b26", 5, Shape.circl 1 2 0⟩]).getLast? = some
          { Element.mk none "#df4b26" 5 (Shape.circl 1 2 0) with shape :=
              match (Element.mk none "#df4b26" 5 (Shape.circl 1 2 0)).shape with
              | Shape.stroke t ps => Shape.stroke t (ps ++ [(4 : ℚ), 6])
              | Shape.rect x y _ _ => Shape.rect x y ((4 : ℚ) - 1) ((6 : ℚ) - 2)
              | Shape.circl x y _ => Shape.circl x y
                  (id (((4 : ℚ) - 1) * ((4 : ℚ) - 1) + ((6 : ℚ) - 2) * ((6 : ℚ) - 2))) }) :=
  ⟨rfl, mousemove_mutates_only_last id ⟨1, 2⟩ ⟨4, 6⟩
    [⟨none, "#000000", 2, Shape.stroke LTool.pen [0, 0, 1, 1]⟩,
     ⟨none, "#df4b26", 5, Shape.circl 1 2 0⟩]
    ⟨none, "#df4b26", 5, Shape.circl 1 2 0⟩ rfl⟩

/-- The part of the payload shape that the read-path validation actually
guarantees: a non-empty points array for strokes and a numeric x for
rectangles and circles.  The remaining payload fields pass through
unchecked. -/
def parsedShapeOK : PShape → Bool
  | PShape.pstroke _ ps => !ps.isEmpty
  | PShape.prect x _ _ _ => isNum x
  | PShape.pcircle x _ _ => isNum x

theorem parseShape_ok (d : ElementData) (sh : PShape) (hp : parseShape d = some sh) :
    parsedShapeOK sh = true := by
  unfold parseShape at hp
  repeat' split at hp
  any_goals exact Option.noConfusion hp
  all_goals injection hp with he
  all_goals subst he
  all_goals simp_all [parsedShapeOK, isNum, List.isEmpty_iff, List.length_pos]

theorem parseRowRealtime_id (r : Row) (e : PElem) (hp : parseRowRealtime r = some e) :
    e.id = some r.id := by
  unfold parseRowRealtime at hp
  repeat' split at hp
  any_goals exact Option.noConfusion hp
  all_goals injection hp with he
  all_goals subst he
  all_goals rfl

theorem parseRowRealtime_spec (r : Row) (e : PElem) (hp : parseRowRealtime r = some e) :
    e.id = some r.id ∧ parsedShapeOK e.shape = true := by
  unfold parseRowRealtime at hp
  repeat' split at hp
  any_goals exact Option.noConfusion hp
  all_goals injection hp with he
  all_goals subst he
  all_goals exact ⟨rfl, parseShape_ok _ _ (by assumption)⟩

theorem parseRowFetch_spec (r : Row) (e : PElem) (hp : parseRowFetch r = some e) :
    e.id = some r.id ∧ parsedShapeOK e.shape = true
    ∧ truthy e.color = true ∧ truthy e.strokeWidth = true := by
  unfold parseRowFetch at hp
  repeat' split at hp
  any_goals exact Option.noConfusion hp
  all_goals injection hp with he
  all_goals subst he
  all_goals refine ⟨rfl, parseShape_ok _ _ (by assumption), ?_, ?_⟩
  all_goals simp_all [Bool.and_eq_true]

/-- Counterexample to claim C7 as stated: a rectangle row whose y field
holds the string "oops" is accepted by both read paths and yields an
element whose y payload field is mistyped; and a pen row with missing
color and strokeWidth is accepted by the realtime callback (which,
unlike the initial fetch, never checks those fields) and yields an
element with missing base fields.  Neither malformed row is skipped or
forced into a payload matching its tool tag. -/
theorem read_path_mistyped_cex :
    (parseRowRealtime ⟨"row9", none, some
        { tool := some (JVal.jstr "rectangle"), color := some (JVal.jstr "#000000"),
          strokeWidth := some (JVal.jnum 5), points := none,
          x := some (JVal.jnum 5), y := some (JVal.jstr "oops"),
          width := none, height := none, radius := none }⟩).map
      (fun e => wellTypedShape e.shape) = some false
    ∧ (parseRowFetch ⟨"row9", none, some
        { tool := some (JVal.jstr "rectangle"), color := some (JVal.jstr "#000000"),
          strokeWidth := some (JVal.jnum 5), points := none,
          x := some (JVal.jnum 5), y := some (JVal.jstr "oops"),
          width := none, height := none, radius := none }⟩).map
      (fun e => wellTypedShape e.shape) = some false
    ∧ (parseRowRealtime ⟨"row8", none, some
        { tool := some (JVal.jstr "pen"), color := none, strokeWidth := none,
          points := some (JVal.jarr [JVal.jnum 0, JVal.jnum 0, JVal.jnum 1, JVal.jnum 1]),
          x := none, y := none, width := none, height := none, radius := none }⟩).map
      (fun e => e.color.isNone && e.strokeWidth.isNone) = some true :=
  ⟨rfl, rfl, rfl⟩

/-- Claim C7, amended: both halves of the read path are total, and each
skips exactly the rows failing the checks it actually performs.  Both the
realtime insert callback and the initial bulk fetch require the tool tag
to be one of the four tool strings, a non-empty points array for pen and
eraser rows, and a numeric x for rectangle and circle rows; an accepted
row yields an element carrying the row identifier whose shape satisfies
parsedShapeOK.  The initial fetch additionally skips rows with missing
or falsy tool, color or strokeWidth, but the realtime callback performs
no such check and copies color and strokeWidth raw (possibly missing).
Neither path type-checks y, width, height, radius or the individual
points entries, so malformed rows can still yield elements with missing
or mistyped payload fields. -/
theorem read_path_guarantees
    (r1 : Row) (e1 : PElem) (hp1 : parseRowRealtime r1 = some e1)
    (r2 : Row) (e2 : PElem) (hp2 : parseRowFetch r2 = some e2) :
    (e1.id = some r1.id ∧ parsedShapeOK e1.shape = true)
    ∧ (e2.id = some r2.id ∧ parsedShapeOK e2.shape = true
       ∧ truthy e2.color = true ∧ truthy e2.strokeWidth = true) :=
  ⟨parseRowRealtime_spec r1 e1 hp1, parseRowFetch_spec r2 e2 hp2⟩

/-- Witness for read_path_guarantees: a pen row with missing color and
strokeWidth accepted by the realtime path, and a fully populated pen row
accepted by the fetch path. -/
theorem read_path_guarantees_witness :
    parseRowRealtime ⟨"row8", none, some
        { tool := some (JVal.jstr "pen"), color := none, strokeWidth := none,
          points := some (JVal.jarr [JVal.jnum 0, JVal.jnum 0]),
          x := none, y := none, width := none, height := none, radius := none }⟩
      = some ⟨some "row8", none, none, none,
          PShape.pstroke LTool.pen [JVal.jnum 0, JVal.jnum 0]⟩
    ∧ parseRowFetch ⟨"row1", none, some
        { tool := some (JVal.jstr "pen"), color := some (JVal.jstr "#df4b26"),
          strokeWidth := some (JVal.jnum 5),
          points := some (JVal.jarr [JVal.jnum 0, JVal.jnum 0, JVal.jnum 1, JVal.jnum 1]),
          x := none, y := none, width := none, height := none, radius := none }⟩
      = some ⟨some "row1", none, some (JVal.jstr "#df4b26"), some (JVal.jnum 5),
          PShape.pstroke LTool.pen [JVal.jnum 0, JVal.jnum 0, JVal.jnum 1, JVal.jnum 1]⟩
    ∧ (((PElem.mk (some "row8") none none none
            (PShape.pstroke LTool.pen [JVal.jnum 0, JVal.jnum 0])).id = some "row8"
        ∧ parsedShapeOK (PElem.mk (some "row8") none none none
            (PShape.pstroke LTool.pen [JVal.jnum 0, JVal.jnum 0])).shape = true)
      ∧ ((PElem.mk (some "row1") none (some (JVal.jstr "#df4b26")) (some (JVal.jnum 5))
            (PShape.pstroke LTool.pen
              [JVal.jnum 0, JVal.jnum 0, JVal.jnum 1, JVal.jnum 1])).id = some "row1"
        ∧ parsedShapeOK (PElem.mk (some "row1") none (some (JVal.jstr "#df4b26"))
            (some (JVal.jnum 5)) (PShape.pstroke LTool.pen
              [JVal.jnum 0, JVal.jnum 0, JVal.jnum 1, JVal.jnum 1])).shape = true
        ∧ truthy (PElem.mk (some "row1") none (some (JVal.jstr "#df4b26"))
            (some (JVal.jnum 5)) (PShape.pstroke LTool.pen
              [JVal.jnum 0, JVal.jnum 0, JVal.jnum 1, JVal.jnum 1])).color = true
        ∧ truthy (PElem.mk (some "row1") none (some (JVal.jstr "#df4b26"))
            (some (JVal.jnum 5)) (PShape.pstroke LTool.pen
              [JVal.jnum 0, JVal.jnum 0, JVal.jnum 1, JVal.jnum 1])).strokeWidth = true)) :=
  ⟨rfl, rfl, read_path_guarantees
    ⟨"row8", none, some
        { tool := some (JVal.jstr "pen"), color := none, strokeWidth := none,
          points := some (JVal.jarr [JVal.jnum 0, JVal.jnum 0]),
          x := none, y := none, width := none, height := none, radius := none }⟩
    ⟨some "row8", none, none, none,
        PShape.pstroke LTool.pen [JVal.jnum 0, JVal.jnum 0]⟩ rfl
    ⟨"row1", none, some
        { tool := some (JVal.jstr "pen"), color := some (JVal.jstr "#df4b26"),
          strokeWidth := some (JVal.jnum 5),
          points := some (JVal.jarr [JVal.jnum 0, JVal.jnum 0, JVal.jnum 1, JVal.jnum 1]),
          x := none, y := none, width := none, height := none, radius := none }⟩
    ⟨some "row1", none, some (JVal.jstr "#df4b26"), some (JVal.jnum 5),
        PShape.pstroke LTool.pen [JVal.jnum 0, JVal.jnum 0, JVal.jnum 1, JVal.jnum 1]⟩ rfl⟩

theorem countId_eq_zero_iff (l : List PElem) (rid : String) :
    countId l rid = 0 ↔ (l.any fun el => el.id == some rid) = false := by
  simp [countId, List.length_eq_zero, List.filter_eq_nil_iff, List.any_eq_false]

theorem countId_append_one (l : List PElem) (ne : PElem) (rid : String)
    (h : ne.id = some rid) :
    countId (l ++ [ne]) rid = countId l rid + 1 := by
  simp [countId, List.filter_append, h]

theorem any_append_id (l : List PElem) (ne : PElem) (rid : String) (h : ne.id = some rid) :
    ((l ++ [ne]).any fun el => el.id == some rid) = true := by
  simp [List.any_append, h]

/-- Claim C5: the realtime insert handler is idempotent with respect to
element identifiers: processing the same validated notification twice
over a list that held at most one entry with its row id leaves exactly
one entry with that id; a list already containing the id is left
unchanged; and processing a notification a second time never changes the
list again. -/
theorem realtime_insert_idempotent
    (l : List PElem) (r : Row) (ne : PElem) (hp : parseRowRealtime r = some ne) :
    (countId l r.id ≤ 1 → countId (processInsert (processInsert l r) r) r.id = 1)
    ∧ ((l.any fun el => el.id == some r.id) = true → processInsert l r = l)
    ∧ processInsert (processInsert l r) r = processInsert l r := by
  have hid : ne.id = some r.id := parseRowRealtime_id r ne hp
  by_cases hany : (l.any fun el => el.id == some r.id) = true
  · have h1 : processInsert l r = l := by
      simp [processInsert, hp, hid, hany]
    refine ⟨?_, fun _ => h1, by rw [h1, h1]⟩
    intro hle
    rw [h1, h1]
    have h0 : countId l r.id ≠ 0 := by
      intro h0
      rw [countId_eq_zero_iff] at h0
      simp [h0] at hany
    omega
  · have hanyf : (l.any fun el => el.id == some r.id) = false := by
      simpa using hany
    have h1 : processInsert l r = l ++ [ne] := by
      simp [processInsert, hp, hid, hanyf]
    have h2 : processInsert (l ++ [ne]) r = l ++ [ne] := by
      simp [processInsert, hp, any_append_id l ne r.id hid]
    refine ⟨?_, ?_, by rw [h1, h2]⟩
    · intro _
      rw [h1, h2, countId_append_one l ne r.id hid,
        (countId_eq_zero_iff l r.id).mpr hanyf]
    · intro hc
      exact absurd hc (by simp [hanyf])

/-- Witness for realtime_insert_idempotent: the empty list and a concrete
pen-stroke notification row. -/
theorem realtime_insert_idempotent_witness :
    parseRowRealtime ⟨"row1", none, some
        { tool := some (JVal.jstr "pen"), color := some (JVal.jstr "#df4b26"),
          strokeWidth := some (JVal.jnum 5),
          points := some (JVal.jarr [JVal.jnum 0, JVal.jnum 0, JVal.jnum 1, JVal.jnum 1]),
          x := none, y := none, width := none, height := none, radius := none }⟩
      = some ⟨some "row1", none, some (JVal.jstr "#df4b26"), some (JVal.jnum 5),
          PShape.pstroke LTool.pen [JVal.jnum 0, JVal.jnum 0, JVal.jnum 1, JVal.jnum 1]⟩
    ∧ ((countId ([] : List PElem)
          (Row.mk "row1" none (some
            { tool := some (JVal.jstr "pen"), color := some (JVal.jstr "#df4b26"),
              strokeWidth := some (JVal.jnum 5),
              points := some (JVal.jarr [JVal.jnum 0, JVal.jnum 0, JVal.jnum 1, JVal.jnum 1]),
              x := none, y := none, width := none, height := none, radius := none })).id ≤ 1 →
        countId (processInsert (processInsert ([] : List PElem)
            ⟨"row1", none, some
              { tool := some (JVal.jstr "pen"), color := some (JVal.jstr "#df4b26"),
                strokeWidth := some (JVal.jnum 5),
                points := some (JVal.jarr [JVal.jnum 0, JVal.jnum 0, JVal.jnum 1, JVal.jnum 1]),
                x := none, y := none, width := none, height := none, radius := none }⟩)
            ⟨"row1", none, some
              { tool := some (JVal.jstr "pen"), color := some (JVal.jstr "#df4b26"),
                strokeWidth := some (JVal.jnum 5),
                points := some (JVal.jarr [JVal.jnum 0, JVal.jnum 0, JVal.jnum 1, JVal.jnum 1]),
                x := none, y := none, width := none, height := none, radius := none }⟩)
          (Row.mk "row1" none (some
            { tool := some (JVal.jstr "pen"), color := some (JVal.jstr "#df4b26"),
              strokeWidth := some (JVal.jnum 5),
              points := some (JVal.jarr [JVal.jnum 0, JVal.jnum 0, JVal.jnum 1, JVal.jnum 1]),
              x := none, y := none, width := none, height := none, radius := none })).id = 1)
      ∧ ((([] : List PElem).any fun el => el.id == some (Row.mk "row1" none (some
            { tool := some (JVal.jstr "pen"), color := some (JVal.jstr "#df4b26"),
              strokeWidth := some (JVal.jnum 5),
              points := some (JVal.jarr [JVal.jnum 0, JVal.jnum 0, JVal.jnum 1, JVal.jnum 1]),
              x := none, y := none, width := none, height := none, radius := none })).id) = true →
          processInsert ([] : List PElem)
            ⟨"row1", none, some
              { tool := some (JVal.jstr "pen"), color := some (JVal.jstr "#df4b26"),
                strokeWidth := some (JVal.jnum 5),
                points := some (JVal.jarr [JVal.jnum 0, JVal.jnum 0, JVal.jnum 1, JVal.jnum 1]),
                x := none, y := none, width := none, height := none, radius := none }⟩ = [])
      ∧ processInsert (processInsert ([] : List PElem)
            ⟨"row1", none, some
              { tool := some (JVal.jstr "pen"), color := some (JVal.jstr "#df4b26"),
                strokeWidth := some (JVal.jnum 5),
                points := some (JVal.jarr [JVal.jnum 0, JVal.jnum 0, JVal.jnum 1, JVal.jnum 1]),
                x := none, y := none, width := none, height := none, radius := none }⟩)
          ⟨"row1", none, some
            { tool := some (JVal.jstr "pen"), color := some (JVal.jstr "#df4b26"),
              strokeWidth := some (JVal.jnum 5),
              points := some (JVal.jarr [JVal.jnum 0, JVal.jnum 0, JVal.jnum 1, JVal.jnum 1]),
              x := none, y := none, width := none, height := none, radius := none }⟩
        = processInsert ([] : List PElem)
            ⟨"row1", none, some
              { tool := some (JVal.jstr "pen"), color := some (JVal.jstr "#df4b26"),
                strokeWidth := some (JVal.jnum 5),
                points := some (JVal.jarr [JVal.jnum 0, JVal.jnum 0, JVal.jnum 1, JVal.jnum 1]),
                x := none, y := none, width := none, height := none, radius := none }⟩) :=
  ⟨rfl, realtime_insert_idempotent []
    ⟨"row1", none, some
        { tool := some (JVal.jstr "pen"), color := some (JVal.jstr "#df4b26"),
          strokeWidth := some (JVal.jnum 5),
          points := some (JVal.jarr [JVal.jnum 0, JVal.jnum 0, JVal.jnum 1, JVal.jnum 1]),
          x := none, y := none, width := none, height := none, radius := none }⟩
    ⟨some "row1", none, some (JVal.jstr "#df4b26"), some (JVal.jnum 5),
        PShape.pstroke LTool.pen [JVal.jnum 0, JVal.jnum 0, JVal.jnum 1, JVal.jnum 1]⟩ rfl⟩

theorem appendError_ne_none (prev : Option String) (m : String) :
    appendError prev m ≠ none := by
  cases prev with
  | none => simp [appendError]
  | some p =>
    by_cases hp : p = "" <;> simp [appendError, hp]

/-- Counterexample to claim C6 as stated: when the board list fetch fails,
the boards list does not keep its previous value — the failure path of
fetchBoards explicitly clears it to the empty list, so the error string
is not the only state change. -/
theorem fetch_failure_clears_boards_cex :
    (fetchBoardsRun ⟨[⟨"b1", "2025-01-01", "Algebra", "u1", none⟩], none, none, none⟩
        (QueryResult.fail "network error")).boards = []
    ∧ (DashState.mk [⟨"b1", "2025-01-01", "Algebra", "u1", none⟩] none none none).boards
        ≠ [] := by
  refine ⟨rfl, ?_⟩
  decide

/-- Claim C6, amended: when a backend operation fails, board create,
board delete and board rename change only their error string and leave
the boards list and the other error slots unchanged, and element fetch
and element insert change only the board-view error string and leave the
board record and the element list unchanged; the board list fetch is the
exception — its failure path records the error string AND clears the
boards list to the empty list. -/
theorem failure_state_isolation (st : DashState) (bst : BoardViewState) (m : String) :
    ((createBoardFail st m).boards = st.boards
      ∧ (createBoardFail st m).fetchError = st.fetchError
      ∧ (createBoardFail st m).actionError = st.actionError
      ∧ (createBoardFail st m).createError ≠ none)
    ∧ ((deleteBoardFail st m).boards = st.boards
      ∧ (deleteBoardFail st m).fetchError = st.fetchError
      ∧ (deleteBoardFail st m).createError = st.createError
      ∧ (deleteBoardFail st m).actionError ≠ none)
    ∧ ((renameBoardFail st m).boards = st.boards
      ∧ (renameBoardFail st m).fetchError = st.fetchError
      ∧ (renameBoardFail st m).createError = st.createError
      ∧ (renameBoardFail st m).actionError ≠ none)
    ∧ ((fetchElementsFail bst).board = bst.board
      ∧ (fetchElementsFail bst).elements = bst.elements
      ∧ (fetchElementsFail bst).error ≠ none)
    ∧ ((saveElementFail bst).board = bst.board
      ∧ (saveElementFail bst).elements = bst.elements
      ∧ (saveElementFail bst).error ≠ none)
    ∧ ((fetchBoardsRun st (QueryResult.fail m)).boards = []
      ∧ (fetchBoardsRun st (QueryResult.fail m)).createError = st.createError
      ∧ (fetchBoardsRun st (QueryResult.fail m)).actionError = st.actionError
      ∧ (fetchBoardsRun st (QueryResult.fail m)).fetchError ≠ none) := by
  refine ⟨⟨rfl, rfl, rfl, by simp [createBoardFail]⟩,
    ⟨rfl, rfl, rfl, by simp [deleteBoardFail]⟩,
    ⟨rfl, rfl, rfl, by simp [renameBoardFail]⟩,
    ⟨rfl, rfl, appendError_ne_none bst.error "Failed to fetch elements."⟩,
    ⟨rfl, rfl, appendError_ne_none bst.error "Failed to save element."⟩,
    ⟨rfl, rfl, rfl, by simp [fetchBoardsRun]⟩⟩

theorem echoElem_id (sd : SaveData) (rid : String) (creator : Option String) :
    (echoElem sd rid creator).id = some rid := by
  cases hsh : sd.shape <;> simp [echoElem, hsh]

theorem parse_insertRow (sd : SaveData) (rid : String) (creator : Option String)
    (hps : ∀ t ps, sd.shape = Shape.stroke t ps → ps ≠ []) :
    parseRowRealtime (insertRow sd rid creator) = some (echoElem sd rid creator) := by
  cases hsh : sd.shape with
  | stroke t ps =>
    have hne : ps ≠ [] := hps t ps hsh
    have hlen : 0 < ps.length := List.length_pos.mpr hne
    cases t <;>
      simp [parseRowRealtime, parseShape, insertRow, encodeSaveData, echoElem, hsh, toolTag,
        hlen, hne]
  | rect x y w h =>
    simp [parseRowRealtime, parseShape, insertRow, encodeSaveData, echoElem, hsh, nvl]
  | circl x y rad =>
    simp [parseRowRealtime, parseShape, insertRow, encodeSaveData, echoElem, hsh, nvl]

/-- Claim C10: deduplication never merges a drawing of the local user with
its own realtime echo: the element appended by a pointer-down carries no
identifier, the save path neither assigns the database identifier to the
local list nor removes the saved element, and the duplicate check of the
realtime handler compares identifiers only — so after a completed drag
whose own insert notification arrives (its row id fresh for the list),
the list keeps the identifier-less local entry and additionally gains the
identifier-bearing echo entry: two entries for that shape. -/
theorem local_element_duplicated_by_echo
    (tool : Tool) (pos : Pt) (c : String) (sw : ℚ) (lA : List Element)
    (lP : List PElem) (localE : PElem) (sd : SaveData) (rid : String)
    (creator : Option String)
    (hmem : localE ∈ lP) (hlid : localE.id = none)
    (hfresh : ∀ el ∈ lP, el.id ≠ some rid)
    (hc : sd.color ≠ "") (hsw : sd.strokeWidth ≠ 0)
    (hps : ∀ t ps, sd.shape = Shape.stroke t ps → ps ≠ []) :
    (mouseDownElement tool pos c sw).id = none
    ∧ handleMouseDown tool pos c sw lA = lA ++ [mouseDownElement tool pos c sw]
    ∧ ((saveElementToDb lA).1.isSome = true → (saveElementToDb lA).2 = lA)
    ∧ processInsert lP (insertRow sd rid creator) = lP ++ [echoElem sd rid creator]
    ∧ (echoElem sd rid creator).id = some rid
    ∧ localE ∈ processInsert lP (insertRow sd rid creator)
    ∧ localE.id ≠ (echoElem sd rid creator).id := by
  have hparse := parse_insertRow sd rid creator hps
  have hany : (lP.any fun el => el.id == (echoElem sd rid creator).id) = false := by
    rw [echoElem_id]
    simp only [List.any_eq_false]
    intro x hx
    simpa using hfresh x hx
  have hproc : processInsert lP (insertRow sd rid creator)
      = lP ++ [echoElem sd rid creator] := by
    simp [processInsert, hparse, hany]
  refine ⟨?_, rfl, ?_, hproc, echoElem_id sd rid creator, ?_, ?_⟩
  · cases tool <;> rfl
  · intro hsome
    cases hl : lA.getLast? with
    | none => simp [saveElementToDb, hl] at hsome
    | some e =>
      cases hsh : e.shape with
      | stroke t ps =>
        by_cases hlt : ps.length < 4
        · simp [saveElementToDb, hl, hsh, hlt] at hsome
        · simp [saveElementToDb, hl, hsh, hlt]
      | rect x y w h =>
        by_cases hd : w = 0 ∨ h = 0
        · simp [saveElementToDb, hl, hsh, hd] at hsome
        · simp [saveElementToDb, hl, hsh, hd]
      | circl x y rr =>
        by_cases hd : rr = 0
        · simp [saveElementToDb, hl, hsh, hd] at hsome
        · simp [saveElementToDb, hl, hsh, hd]
  · rw [hproc]
    exact List.mem_append_left _ hmem
  · rw [hlid, echoElem_id]
    simp

/-- Witness for local_element_duplicated_by_echo: a one-element local list
holding an identifier-less stroke, and the echo notification of a saved
rectangle with the fresh row id row1. -/
theorem local_element_duplicated_by_echo_witness :
    (PElem.mk none none (some (JVal.jstr "#df4b26")) (some (JVal.jnum 5))
        (PShape.pstroke LTool.pen [JVal.jnum 0, JVal.jnum 0, JVal.jnum 1, JVal.jnum 1])).id
      = none
    ∧ ("#df4b26" : String) ≠ "" ∧ (5 : ℚ) ≠ 0
    ∧ ((mouseDownElement Tool.pen ⟨0, 0⟩ "#df4b26" 5).id = none
      ∧ handleMouseDown Tool.pen ⟨0, 0⟩ "#df4b26" 5
            [⟨none, "#df4b26", 5, Shape.stroke LTool.pen [0, 0, 1, 1]⟩]
          = [⟨none, "#df4b26", 5, Shape.stroke LTool.pen [0, 0, 1, 1]⟩]
            ++ [mouseDownElement Tool.pen ⟨0, 0⟩ "#df4b26" 5]
      ∧ ((saveElementToDb
            [⟨none, "#df4b26", 5, Shape.stroke LTool.pen [0, 0, 1, 1]⟩]).1.isSome = true →
          (saveElementToDb
            [⟨none, "#df4b26", 5, Shape.stroke LTool.pen [0, 0, 1, 1]⟩]).2
            = [⟨none, "#df4b26", 5, Shape.stroke LTool.pen [0, 0, 1, 1]⟩])
      ∧ processInsert
            [⟨none, none, some (JVal.jstr "#df4b26"), some (JVal.jnum 5),
              PShape.pstroke LTool.pen [JVal.jnum 0, JVal.jnum 0, JVal.jnum 1, JVal.jnum 1]⟩]
            (insertRow ⟨"#df4b26", 5, Shape.rect 1 2 3 4⟩ "row1" none)
          = [⟨none, none, some (JVal.jstr "#df4b26"), some (JVal.jnum 5),
              PShape.pstroke LTool.pen [JVal.jnum 0, JVal.jnum 0, JVal.jnum 1, JVal.jnum 1]⟩]
            ++ [echoElem ⟨"#df4b26", 5, Shape.rect 1 2 3 4⟩ "row1" none]
      ∧ (echoElem ⟨"#df4b26", 5, Shape.rect 1 2 3 4⟩ "row1" none).id = some "row1"
      ∧ (PElem.mk none none (some (JVal.jstr "#df4b26")) (some (JVal.jnum 5))
            (PShape.pstroke LTool.pen [JVal.jnum 0, JVal.jnum 0, JVal.jnum 1, JVal.jnum 1]))
          ∈ processInsert
            [⟨none, none, some (JVal.jstr "#df4b26"), some (JVal.jnum 5),
              PShape.pstroke LTool.pen [JVal.jnum 0, JVal.jnum 0, JVal.jnum 1, JVal.jnum 1]⟩]
            (insertRow ⟨"#df4b26", 5, Shape.rect 1 2 3 4⟩ "row1" none)
      ∧ (PElem.mk none none (some (JVal.jstr "#df4b26")) (some (JVal.jnum 5))
            (PShape.pstroke LTool.pen [JVal.jnum 0, JVal.jnum 0, JVal.jnum 1, JVal.jnum 1])).id
          ≠ (echoElem ⟨"#df4b26", 5, Shape.rect 1 2 3 4⟩ "row1" none).id) :=
  ⟨rfl, by decide, by decide,
    local_element_duplicated_by_echo Tool.pen ⟨0, 0⟩ "#df4b26" 5
      [⟨none, "#df4b26", 5, Shape.stroke LTool.pen [0, 0, 1, 1]⟩]
      [⟨none, none, some (JVal.jstr "#df4b26"), some (JVal.jnum 5),
        PShape.pstroke LTool.pen [JVal.jnum 0, JVal.jnum 0, JVal.jnum 1, JVal.jnum 1]⟩]
      ⟨none, none, some (JVal.jstr "#df4b26"), some (JVal.jnum 5),
        PShape.pstroke LTool.pen [JVal.jnum 0, JVal.jnum 0, JVal.jnum 1, JVal.jnum 1]⟩
      ⟨"#df4b26", 5, Shape.rect 1 2 3 4⟩ "row1" none
      (List.mem_singleton.mpr rfl) rfl
      (by
        intro el h
        rw [List.mem_singleton] at h
        subst h
        simp)
      (by decide) (by decide)
      (by
        intro t ps h
        simp at h)⟩
